import Mathlib

/-!
Shallow embedding of `src/p5/core/primitives.py` (the primitive-geometry and
adaptive-tessellation core of the p5 creative-coding renderer).

Conventions of the embedding:
* Python floats are modelled as real numbers (`ℝ`); Python `int(x)` on a
  nonnegative float is `Nat.floor` / on a possibly negative float it truncates
  toward zero (`pyInt` below).
* Fallible constructors return `Except String PShape`; the renderer
  collaborator's `render` calls performed by the `@_draw_on_return` decorator
  are logged explicitly in the second component of `PRes`, so "the renderer
  was never called" is the statement that this log is empty.
* Module-level mutable state (`_rect_mode`, `_ellipse_mode`) is passed
  explicitly as a `ModeState` value; renderer state (transform matrix, stroke
  cap, stroke weight) as a `Renderer` value.
* Collaborators that live outside `src/` (the `SINCOS` table from
  `p5.pmath.utils`, the constants `ROUND`/`SQUARE`/`PROJECT`, the curve
  evaluators of `p5.pmath.curves` and the fixed curve resolutions) are
  modelled from the spec; each of those definitions says so in its
  doc comment.
-/

namespace P5

open Real

noncomputable section

/-- Point value: a 3-component coordinate; `z` defaults to 0 for 2D calls
(`Point` of `p5.pmath`, a collaborator; modelled as a plain record of reals). -/
structure Pt where
  x : ℝ
  y : ℝ
  z : ℝ

/-- Topology tags (`SType` from `core/constants`, not under `src/`).
Modelled from the spec: the tag set of the data model, with `TESS` standing
for TESSELLATED_POLYGON. -/
inductive SType where
  | POINTS
  | LINES
  | LINE_STRIP
  | TRIANGLES
  | TRIANGLE_FAN
  | QUADS
  | TESS
  deriving DecidableEq

/-- Modelled from the spec: a canonical shape is an ordered vertex sequence
plus a topology tag (`PShape` from `core/shape.py`, not under `src/`).
Style attributes are omitted: no claim consults them.  The child-shape list is
omitted because every shape produced by this module is a leaf. -/
structure PShape where
  vertices : List Pt
  shape_type : SType

/-- Modelled from the spec: stroke-cap constant `SQUARE` from
`core/constants` (not under `src/`); the three caps are distinct values. -/
def SQUARE : ℕ := 0

/-- Modelled from the spec: stroke-cap constant `ROUND`. -/
def ROUND : ℕ := 2

/-- Modelled from the spec: stroke-cap constant `PROJECT`. -/
def PROJECT : ℕ := 4

/-- Renderer collaborator state consumed by this module: the current 4×4
transform snapshot, stroke cap and stroke weight (`p5.renderer`). -/
structure Renderer where
  transform_matrix : Matrix (Fin 4) (Fin 4) ℝ
  stroke_cap : ℕ
  stroke_weight : ℝ

/-- The module-level mode globals `_rect_mode` and `_ellipse_mode`
(lines 38-39 of the source), passed explicitly. -/
structure ModeState where
  rectMode : String
  ellipseMode : String

/-- Initial values of the mode globals: `_rect_mode = 'CORNER'`,
`_ellipse_mode = 'CENTER'`. -/
def initMode : ModeState := { rectMode := ("CORNER"), ellipseMode := ("CENTER") }

/-- A positional argument at the Python call boundary: a scalar or a
point-like tuple. -/
inductive PyVal where
  | num (v : ℝ)
  | pt (p : Pt)

/-- Default value used with `List.getD` on argument lists; every `getD` in
this file sits under a length guard that makes the default unreachable. -/
def dv : PyVal := PyVal.num 0

/-- Python `Point(*coordinate)` applied to a point-like value; a scalar is a
`TypeError` (not iterable). -/
def asPoint : PyVal → Except String Pt
  | PyVal.pt p => Except.ok p
  | PyVal.num _ => Except.error ("TypeError: coordinate is not a point tuple")

/-- Use of a positional argument as a number; a tuple in a scalar position is
a `TypeError`. -/
def asNum : PyVal → Except String ℝ
  | PyVal.num v => Except.ok v
  | PyVal.pt _ => Except.error ("TypeError: expected a scalar argument")

/-- Result of a primitive constructor: the constructed shape (or the raised
error), together with the list of shapes submitted to the renderer
collaborator's `render` entry point while the call ran. -/
abbrev PRes := Except String PShape × List PShape

/-- The `draw_shape` dispatcher (lines 792-808): submits the shape to the
renderer, then its children; the shapes of this module are leaves, so the
render log is the single shape. -/
def draw_shape (s : PShape) : List PShape := [s]

/-- The `@_draw_on_return` decorator (lines 64-74): on success the shape is
drawn as a side effect; a raised error propagates before any render call. -/
def draw_on_return (r : Except String PShape) : PRes :=
  match r with
  | Except.ok s => (Except.ok s, draw_shape s)
  | Except.error e => (Except.error e, [])

/-- MIN_POINT_ACCURACY (line 60). -/
def MIN_POINT_ACCURACY : ℕ := 20

/-- MAX_POINT_ACCURACY (line 61). -/
def MAX_POINT_ACCURACY : ℕ := 200

/-- POINT_ACCURACY_FACTOR (line 62). -/
def POINT_ACCURACY_FACTOR : ℕ := 10

/-- Modelled from the spec: the shared sine/cosine lookup table `SINCOS`
(`p5.pmath.utils`, not under `src/`) has a fixed number of entries spanning
one full turn; the spec names 3600 entries (0.1° resolution). -/
def SINCOS_LENGTH : ℕ := 3600

/-- Modelled from the spec: entry `i` of the table is the (sin, cos) pair of
the angle `i` table-steps into the full turn. -/
def SINCOS (i : ℕ) : ℝ × ℝ :=
  (Real.sin (2 * π * i / SINCOS_LENGTH), Real.cos (2 * π * i / SINCOS_LENGTH))

/-- Python `int()` on a float: truncation toward zero. -/
def pyInt (x : ℝ) : ℤ := if 0 ≤ x then ⌊x⌋ else ⌈x⌉

/-- Number of elements of Python `range(start, stop, step)` for a positive
step. -/
def pyRangeLen (start stop : ℤ) (step : ℕ) : ℕ :=
  ((stop - start + step - 1) / (step : ℤ)).toNat

/-- Python `range(start, stop, step)` for a positive step, as the list of
produced indices. -/
def pyRange (start stop : ℤ) (step : ℕ) : List ℤ :=
  (List.range (pyRangeLen start stop step)).map (fun k : ℕ => start + (k : ℤ) * (step : ℤ))

/-- Lines 101-107 of `Arc._tessellate`: difference of the projections of the
center and of the center offset by the radii through the current transform
(`s2 - s1`; homogeneous 4-vectors with `z = 0`, `w = 1`). -/
def projectedDiff (R : Renderer) (c radii : Pt) : Fin 4 → ℝ :=
  R.transform_matrix.mulVec ![c.x + radii.x, c.y + radii.y, 0, 1]
    - R.transform_matrix.mulVec ![c.x, c.y, 0, 1]

/-- The Euclidean norm of `projectedDiff`: the arc's apparent projected size
(`np.sqrt(np.sum(sdiff * sdiff))`, line 108). -/
def projectedSize (R : Renderer) (c radii : Pt) : ℝ :=
  Real.sqrt (∑ i, projectedDiff R c radii i * projectedDiff R c radii i)

/-- `size_acc` of line 108: projected size times 2π divided by the accuracy
factor. -/
def size_acc (R : Renderer) (c radii : Pt) : ℝ :=
  projectedSize R c radii * π * 2 / POINT_ACCURACY_FACTOR

/-- `acc` of line 110: the clamped subdivision count
`min(MAX_POINT_ACCURACY, max(MIN_POINT_ACCURACY, int(size_acc)))`;
`size_acc` is nonnegative so `int` is the floor. -/
def pointAccuracy (R : Renderer) (c radii : Pt) : ℕ :=
  min MAX_POINT_ACCURACY (max MIN_POINT_ACCURACY ⌊size_acc R c radii⌋₊)

/-- Table stride `inc = int(len(SINCOS) / acc)` (line 111); the float
division of the two integers is exact enough that `int` of it is integer
division. -/
def arcInc (R : Renderer) (c radii : Pt) : ℕ :=
  SINCOS_LENGTH / pointAccuracy R c radii

/-- Map an angle to a table index (lines 114-115):
`int((angle / (2π)) * len(SINCOS))`. -/
def angleIndex (angle : ℝ) : ℤ :=
  pyInt (angle / (π * 2) * SINCOS_LENGTH)

/-- One emitted arc vertex for raw table index `idx` (lines 120-128): the
index is reduced modulo the table length, entry `[1]` is the cosine and `[0]`
the sine, scaled by the radii and offset by the center. -/
def arcVertexAt (c radii : Pt) (idx : ℤ) : Pt :=
  { x := c.x + radii.x * (SINCOS ((idx % (SINCOS_LENGTH : ℤ)).toNat)).2
    y := c.y + radii.y * (SINCOS ((idx % (SINCOS_LENGTH : ℤ)).toNat)).1
    z := 0 }

/-- The raw table indices walked by the tessellation loop plus the final
index at the stop angle (lines 118-129). -/
def arcIndexList (R : Renderer) (c radii : Pt) (start_angle stop_angle : ℝ) : List ℤ :=
  pyRange (angleIndex start_angle) (angleIndex stop_angle) (arcInc R c radii)
    ++ [angleIndex stop_angle]

/-- The vertices emitted by the loop and the final stop-angle vertex. -/
def arcSamples (R : Renderer) (c radii : Pt) (start_angle stop_angle : ℝ) : List Pt :=
  (arcIndexList R c radii start_angle stop_angle).map (arcVertexAt c radii)

/-- The vertex list of `Arc._tessellate` before the closing append (lines
117-129): the center point is the first emitted vertex for closure mode
`PIE` or unset, followed by the sampled vertices. -/
def arcBase (R : Renderer) (c radii : Pt) (start_angle stop_angle : ℝ)
    (arc_mode : Option String) : List Pt :=
  (if arc_mode = some ("PIE") ∨ arc_mode = none then [Pt.mk c.x c.y 0] else [])
    ++ arcSamples R c radii start_angle stop_angle

/-- `Arc._tessellate` (lines 93-132): the base vertex list, and for
`CHORD`/`PIE` the first vertex appended again
(`vertices.append(vertices[0])`; the list is never empty because the
stop-angle vertex is always present, so `headD` never defaults). -/
def arcTessellate (R : Renderer) (c radii : Pt) (start_angle stop_angle : ℝ)
    (arc_mode : Option String) : List Pt :=
  if arc_mode = some ("CHORD") ∨ arc_mode = some ("PIE") then
    arcBase R c radii start_angle stop_angle arc_mode
      ++ [(arcBase R c radii start_angle stop_angle arc_mode).headD (Pt.mk 0 0 0)]
  else arcBase R c radii start_angle stop_angle arc_mode

/-- Topology of an `Arc` (line 87): `TESS` when the closure mode is OPEN or
CHORD, `TRIANGLE_FAN` otherwise. -/
def arcSType (arc_mode : Option String) : SType :=
  if arc_mode = some ("OPEN") ∨ arc_mode = some ("CHORD") then SType.TESS
  else SType.TRIANGLE_FAN

/-- Construction of an `Arc` shape (`Arc.__init__` + `_tessellate`): vertices
are computed once, from the renderer transform current at that instant. -/
def ArcShape (R : Renderer) (center radii : Pt) (start_angle stop_angle : ℝ)
    (arc_mode : Option String) : PShape :=
  { vertices := arcTessellate R center radii start_angle stop_angle arc_mode
    shape_type := arcSType arc_mode }

/-- The `quad` constructor on the four-point path (lines 447-460), the only
path `rect` uses; `quad` carries `@_draw_on_return`, so the shape is rendered
on construction. -/
def quad4 (p1 p2 p3 p4 : Pt) : PRes :=
  draw_on_return (Except.ok { vertices := [p1, p2, p3, p4], shape_type := SType.QUADS })

/-- Mode normalization of `rect` (lines 511-531), on the coordinate and the
two remaining positional arguments; returns the canonical (corner, width,
height).  In the `CORNERS` branch the source unpacks `corner_2, = args` with
two remaining arguments, which always fails ("too many values to unpack"), so
that branch is an error. -/
def rectNorm (m : String) (coordinate : Pt) (a1 a2 : PyVal) :
    Except String (Pt × ℝ × ℝ) :=
  if m = ("CORNER") then do
    let width ← asNum a1
    let height ← asNum a2
    pure (coordinate, width, height)
  else if m = ("CENTER") then do
    let width ← asNum a1
    let height ← asNum a2
    pure (Pt.mk (coordinate.x - width / 2) (coordinate.y - height / 2) coordinate.z,
      width, height)
  else if m = ("RADIUS") then do
    let half_width ← asNum a1
    let half_height ← asNum a2
    pure (Pt.mk (coordinate.x - half_width) (coordinate.y - half_height) coordinate.z,
      2 * half_width, 2 * half_height)
  else if m = ("CORNERS") then
    Except.error ("too many values to unpack (expected 1)")
  else Except.error (("Unknown rect mode ") ++ m)

/-- The `CORNERS` normalization formulas of lines 524-529 (width and height
as signed offsets of the opposite corner); stated separately because the
branch itself is unreachable through `rect`'s argument splitting. -/
def rectCornersNorm (corner corner_2 : Pt) : Pt × ℝ × ℝ :=
  (corner, corner_2.x - corner.x, corner_2.y - corner.y)

/-- Lines 533-537 of `rect`: build the quad's four corners from the
normalized corner and dimensions (or propagate the raised error, with no
render call). -/
def rectQuad (r : Except String (Pt × ℝ × ℝ)) : PRes :=
  match r with
  | Except.error e => (Except.error e, [])
  | Except.ok (corner, width, height) =>
    let p1 := corner
    let p2 := Pt.mk (p1.x + width) p1.y p1.z
    let p3 := Pt.mk p2.x (p2.y + height) p2.z
    let p4 := Pt.mk p1.x p3.y p3.z
    quad4 p1 p2 p3 p4

/-- `rect` (lines 462-537): arity split on 3 or 4 positional arguments, mode
defaulting to the `_rect_mode` global, normalization, then the four corners
are built and delegated to `quad` (which draws on return). -/
def rect (args : List PyVal) (mode : Option String) (st : ModeState) : PRes :=
  rectQuad (do
    let coordinate ←
      if args.length = 4 then do
        let a ← asNum (args.getD 0 dv)
        let b ← asNum (args.getD 1 dv)
        pure (Pt.mk a b 0)
      else if args.length = 3 then asPoint (args.getD 0 dv)
      else Except.error ("Unexpected number of arguments passed to rect()")
    let a1 := if args.length = 4 then args.getD 2 dv else args.getD 1 dv
    let a2 := if args.length = 4 then args.getD 3 dv else args.getD 2 dv
    rectNorm (mode.getD st.rectMode) coordinate a1 a2)

/-- `square` (lines 539-585): arity split on 2 or 3 positional arguments,
explicit rejection of `CORNERS` mode, then delegation to `rect` with the side
length as both dimensions. -/
def square (args : List PyVal) (mode : Option String) (st : ModeState) : PRes :=
  let r : Except String (PyVal × PyVal) :=
    if args.length = 2 then Except.ok (args.getD 0 dv, args.getD 1 dv)
    else if args.length = 3 then do
      let a ← asNum (args.getD 0 dv)
      let b ← asNum (args.getD 1 dv)
      pure (PyVal.pt (Pt.mk a b 0), args.getD 2 dv)
    else Except.error ("Unexpected number of arguments passed to square()")
  match r with
  | Except.error e => (Except.error e, [])
  | Except.ok (coordinate, side_length) =>
    let m := mode.getD st.rectMode
    if m = ("CORNERS") then
      (Except.error (("Cannot draw square with ") ++ m ++ (" mode")), [])
    else rect [coordinate, side_length, side_length] (some m) st

/-- `rect_mode` (lines 587-598): stores its argument into the `_rect_mode`
global, with no validation; the default argument resets to `'CORNER'`. -/
def rect_mode (st : ModeState) (mode : String := ("CORNER")) : ModeState :=
  { st with rectMode := mode }

/-- Lines 657-668 of `arc`: resolve the ellipse mode into the arc's center
and radii pair; an unrecognized mode raises "Unknown arc mode". -/
def arcCenterDim (emode : String) (coordinate : PyVal) (width height : ℝ) :
    Except String (Pt × Pt) :=
  if emode = ("CORNER") then do
    let corner ← asPoint coordinate
    pure (Pt.mk (corner.x + width / 2) (corner.y + height / 2) corner.z,
      Pt.mk (width / 2) (height / 2) 0)
  else if emode = ("CENTER") then do
    let center ← asPoint coordinate
    pure (center, Pt.mk (width / 2) (height / 2) 0)
  else if emode = ("RADIUS") then do
    let center ← asPoint coordinate
    pure (center, Pt.mk width height 0)
  else Except.error (("Unknown arc mode ") ++ emode)

/-- `arc` (lines 600-669): arity split on 5 or 6 positional arguments,
ellipse-mode resolution of center and radii, then an `Arc` is constructed
(tessellating with the current renderer transform) and drawn on return. -/
def arc (args : List PyVal) (mode : Option String) (ellipse_mode : Option String)
    (st : ModeState) (R : Renderer) : PRes :=
  draw_on_return (do
    let (coordinate, width, height, start_angle, stop_angle) ←
      if args.length = 5 then do
        let w ← asNum (args.getD 1 dv)
        let h ← asNum (args.getD 2 dv)
        let sa ← asNum (args.getD 3 dv)
        let sb ← asNum (args.getD 4 dv)
        pure (args.getD 0 dv, w, h, sa, sb)
      else if args.length = 6 then do
        let a ← asNum (args.getD 0 dv)
        let b ← asNum (args.getD 1 dv)
        let w ← asNum (args.getD 2 dv)
        let h ← asNum (args.getD 3 dv)
        let sa ← asNum (args.getD 4 dv)
        let sb ← asNum (args.getD 5 dv)
        pure (PyVal.pt (Pt.mk a b 0), w, h, sa, sb)
      else Except.error ("Unexpected number of arguments passed to arc()")
    let cd ← arcCenterDim (ellipse_mode.getD st.ellipseMode) coordinate width height
    pure (ArcShape R cd.1 cd.2 start_angle stop_angle mode))

/-- `ellipse` (lines 671-729): arity split on 3 or 4 positional arguments,
mode defaulting to the `_ellipse_mode` global, then conversion into an `arc`
over the full turn with closure mode `CHORD`.  In the `CORNERS` branch the
source unpacks `corner_2, = args` with two remaining arguments, which always
fails ("too many values to unpack"), so that branch is an error. -/
def ellipse (args : List PyVal) (mode : Option String) (st : ModeState)
    (R : Renderer) : PRes :=
  let r : Except String (PyVal × PyVal × PyVal) :=
    if args.length = 3 then Except.ok (args.getD 0 dv, args.getD 1 dv, args.getD 2 dv)
    else if args.length = 4 then do
      let a ← asNum (args.getD 0 dv)
      let b ← asNum (args.getD 1 dv)
      pure (PyVal.pt (Pt.mk a b 0), args.getD 2 dv, args.getD 3 dv)
    else Except.error ("Unexpected number of arguments passed to ellipse()")
  match r with
  | Except.error e => (Except.error e, [])
  | Except.ok (coordinate, a1, a2) =>
    let m := mode.getD st.ellipseMode
    if m = ("CORNERS") then
      (Except.error ("too many values to unpack (expected 1)"), [])
    else
      arc [coordinate, a1, a2, PyVal.num 0, PyVal.num (π * 2)]
        (some ("CHORD")) (some m) st R

/-- `circle` (lines 731-777): arity split on 2 or 3 positional arguments,
explicit rejection of `CORNERS` mode, then delegation to `ellipse` with the
radius argument as both dimensions. -/
def circle (args : List PyVal) (mode : Option String) (st : ModeState)
    (R : Renderer) : PRes :=
  let r : Except String (PyVal × PyVal) :=
    if args.length = 2 then Except.ok (args.getD 0 dv, args.getD 1 dv)
    else if args.length = 3 then do
      let a ← asNum (args.getD 0 dv)
      let b ← asNum (args.getD 1 dv)
      pure (PyVal.pt (Pt.mk a b 0), args.getD 2 dv)
    else Except.error ("Unexpected number of arguments passed to circle()")
  match r with
  | Except.error e => (Except.error e, [])
  | Except.ok (coordinate, radius) =>
    let m := mode.getD st.ellipseMode
    if m = ("CORNERS") then
      (Except.error ("Cannot create circle in CORNERS mode"), [])
    else ellipse [coordinate, radius, radius] (some m) st R

/-- `ellipse_mode` (lines 779-790): stores its argument into the
`_ellipse_mode` global, with no validation; the default argument resets to
`'CENTER'`. -/
def ellipse_mode (st : ModeState) (mode : String := ("CENTER")) : ModeState :=
  { st with ellipseMode := mode }

/-- `point` (lines 134-156): dispatch on the renderer's current stroke cap.
The `SQUARE` branch of the source is `pass`, which falls through to the
`raise ValueError` at the end of the function, exactly like an unknown cap
value; `PROJECT` delegates to `square` and `ROUND` to `circle`, both centered
at the point, with the stroke weight and half the stroke weight respectively
as the size argument. -/
def point (x y z : ℝ) (st : ModeState) (R : Renderer) : PRes :=
  if R.stroke_cap = SQUARE then
    (Except.error ("Unknown stroke_cap value"), [])
  else if R.stroke_cap = PROJECT then
    square [PyVal.pt (Pt.mk x y z), PyVal.num R.stroke_weight] (some ("CENTER")) st
  else if R.stroke_cap = ROUND then
    circle [PyVal.pt (Pt.mk x y z), PyVal.num (R.stroke_weight / 2)] (some ("CENTER")) st R
  else (Except.error ("Unknown stroke_cap value"), [])

/-- Modelled from the spec: `curves.bezier_point` (`p5.pmath.curves`, not
under `src/`) is the classic cubic Bezier blend of (start, control_1,
control_2, stop) at parameter `t`, componentwise. -/
def bezier_point (p0 p1 p2 p3 : Pt) (t : ℝ) : Pt :=
  { x := (1 - t) ^ 3 * p0.x + 3 * (1 - t) ^ 2 * t * p1.x
      + 3 * (1 - t) * t ^ 2 * p2.x + t ^ 3 * p3.x
    y := (1 - t) ^ 3 * p0.y + 3 * (1 - t) ^ 2 * t * p1.y
      + 3 * (1 - t) * t ^ 2 * p2.y + t ^ 3 * p3.y
    z := (1 - t) ^ 3 * p0.z + 3 * (1 - t) ^ 2 * t * p1.z
      + 3 * (1 - t) * t ^ 2 * p2.z + t ^ 3 * p3.z }

/-- Modelled from the spec: `curves.curve_point` is the cubic Catmull-Rom
blend of four consecutive points at parameter `t`, the first and last being
tangent-control points, componentwise. -/
def curve_point (p1 p2 p3 p4 : Pt) (t : ℝ) : Pt :=
  { x := ((2 * p2.x) + (p3.x - p1.x) * t + (2 * p1.x - 5 * p2.x + 4 * p3.x - p4.x) * t ^ 2
      + (3 * p2.x - p1.x - 3 * p3.x + p4.x) * t ^ 3) / 2
    y := ((2 * p2.y) + (p3.y - p1.y) * t + (2 * p1.y - 5 * p2.y + 4 * p3.y - p4.y) * t ^ 2
      + (3 * p2.y - p1.y - 3 * p3.y + p4.y) * t ^ 3) / 2
    z := ((2 * p2.z) + (p3.z - p1.z) * t + (2 * p1.z - 5 * p2.z + 4 * p3.z - p4.z) * t ^ 2
      + (3 * p2.z - p1.z - 3 * p3.z + p4.z) * t ^ 3) / 2 }

/-- The sampling loop of `bezier` (lines 272-278): `steps + 1` evaluations at
`t = i / steps`.  The step count is `curves.bezier_resolution`, a fixed
global configuration outside `src/` (modelled from the spec as a parameter). -/
def bezierVertices (steps : ℕ) (p0 p1 p2 p3 : Pt) : List Pt :=
  (List.range (steps + 1)).map (fun i : ℕ => bezier_point p0 p1 p2 p3 ((i : ℝ) / steps))

/-- The sampling loop of `curve` (lines 347-352), with the fixed
`curves.curve_resolution` step count as a parameter. -/
def curveVertices (steps : ℕ) (p1 p2 p3 p4 : Pt) : List Pt :=
  (List.range (steps + 1)).map (fun i : ℕ => curve_point p1 p2 p3 p4 ((i : ℝ) / steps))

/-- Grouping of the positional arguments of `bezier`/`curve` into four
control points (lines 263-270 and 338-345): exactly 4 point tuples, 8
scalars (2D, z = 0) or 12 scalars (3D); any other count is a `ValueError`
naming the primitive. -/
def controlPoints (name : String) (args : List PyVal) :
    Except String (Pt × Pt × Pt × Pt) :=
  if args.length = 4 then do
    let a ← asPoint (args.getD 0 dv)
    let b ← asPoint (args.getD 1 dv)
    let c ← asPoint (args.getD 2 dv)
    let d ← asPoint (args.getD 3 dv)
    pure (a, b, c, d)
  else if args.length = 8 then do
    let x1 ← asNum (args.getD 0 dv); let y1 ← asNum (args.getD 1 dv)
    let x2 ← asNum (args.getD 2 dv); let y2 ← asNum (args.getD 3 dv)
    let x3 ← asNum (args.getD 4 dv); let y3 ← asNum (args.getD 5 dv)
    let x4 ← asNum (args.getD 6 dv); let y4 ← asNum (args.getD 7 dv)
    pure (Pt.mk x1 y1 0, Pt.mk x2 y2 0, Pt.mk x3 y3 0, Pt.mk x4 y4 0)
  else if args.length = 12 then do
    let x1 ← asNum (args.getD 0 dv); let y1 ← asNum (args.getD 1 dv)
    let z1 ← asNum (args.getD 2 dv)
    let x2 ← asNum (args.getD 3 dv); let y2 ← asNum (args.getD 4 dv)
    let z2 ← asNum (args.getD 5 dv)
    let x3 ← asNum (args.getD 6 dv); let y3 ← asNum (args.getD 7 dv)
    let z3 ← asNum (args.getD 8 dv)
    let x4 ← asNum (args.getD 9 dv); let y4 ← asNum (args.getD 10 dv)
    let z4 ← asNum (args.getD 11 dv)
    pure (Pt.mk x1 y1 z1, Pt.mk x2 y2 z2, Pt.mk x3 y3 z3, Pt.mk x4 y4 z4)
  else Except.error ((("Unexpected number of arguments passed to ") ++ name) ++ ("()"))

/-- `bezier` (lines 205-280): control-point grouping, sampling at the fixed
resolution, LINE_STRIP topology, drawn on return. -/
def bezier (steps : ℕ) (args : List PyVal) : PRes :=
  draw_on_return (do
    let (p0, p1, p2, p3) ← controlPoints ("bezier") args
    pure { vertices := bezierVertices steps p0 p1 p2 p3
           shape_type := SType.LINE_STRIP })

/-- `curve` (lines 282-354): control-point grouping, sampling at the fixed
resolution, LINE_STRIP topology, drawn on return. -/
def curve (steps : ℕ) (args : List PyVal) : PRes :=
  draw_on_return (do
    let (p1, p2, p3, p4) ← controlPoints ("curve") args
    pure { vertices := curveVertices steps p1 p2 p3 p4
           shape_type := SType.LINE_STRIP })

/-- Shape component of a constructor result, when construction succeeded. -/
def okShape (r : PRes) : Option PShape :=
  match r.1 with
  | Except.ok s => some s
  | Except.error _ => none

/-- First vertex of the constructed shape, when construction succeeded. -/
def headVertex (r : PRes) : Option Pt :=
  match r.1 with
  | Except.ok s => s.vertices.head?
  | Except.error _ => none

/-- A renderer whose transform is the zero matrix (projected size 0), with
the given stroke cap and weight; used for concrete evaluations. -/
def zeroRenderer (cap : ℕ) (w : ℝ) : Renderer :=
  { transform_matrix := 0, stroke_cap := cap, stroke_weight := w }

/-- A renderer whose transform is the diagonal matrix diag(120, 160, 0, 0);
it projects the offset (5/2, 5/2) to the vector (300, 400), of Euclidean
norm exactly 500. -/
def diagRenderer : Renderer :=
  { transform_matrix := Matrix.diagonal ![120, 160, 0, 0]
    stroke_cap := 0
    stroke_weight := 0 }

/-- A renderer whose transform is the uniform scaling `a • I`; used to state
monotonicity of the subdivision count in the transform scale. -/
def scaleRenderer (a : ℝ) : Renderer :=
  { transform_matrix := a • (1 : Matrix (Fin 4) (Fin 4) ℝ)
    stroke_cap := 0
    stroke_weight := 0 }

end

/-! ### Supporting lemmas -/

lemma pi_two_pos : (0 : ℝ) < π * 2 := by positivity

lemma angleIndex_zero : angleIndex 0 = 0 := by
  simp [angleIndex, pyInt]

lemma angleIndex_two_pi : angleIndex (π * 2) = 3600 := by
  rw [angleIndex, div_self (ne_of_gt pi_two_pos), one_mul]
  norm_num [pyInt, SINCOS_LENGTH]

lemma pointAccuracy_le_200 (R : Renderer) (c radii : Pt) :
    pointAccuracy R c radii ≤ 200 := by
  unfold pointAccuracy MAX_POINT_ACCURACY
  exact min_le_left _ _

lemma le_pointAccuracy (R : Renderer) (c radii : Pt) :
    20 ≤ pointAccuracy R c radii := by
  unfold pointAccuracy MAX_POINT_ACCURACY MIN_POINT_ACCURACY
  exact le_min (by norm_num) (le_max_left _ _)

lemma arcSamples_length (R : Renderer) (c radii : Pt) (a b : ℝ) :
    (arcSamples R c radii a b).length
      = pyRangeLen (angleIndex a) (angleIndex b) (arcInc R c radii) + 1 := by
  rw [arcSamples, List.length_map, arcIndexList, List.length_append, pyRange,
    List.length_map, List.length_range, List.length_singleton]

lemma arcSamples_ne_nil (R : Renderer) (c radii : Pt) (a b : ℝ) :
    arcSamples R c radii a b ≠ [] := by
  simp [arcSamples, arcIndexList]

lemma arcTessellate_chord (R : Renderer) (c radii : Pt) (a b : ℝ) :
    arcTessellate R c radii a b (some ("CHORD"))
      = arcSamples R c radii a b
          ++ [(arcSamples R c radii a b).headD (Pt.mk 0 0 0)] := by
  rw [arcTessellate, if_pos (by decide)]
  rw [show arcBase R c radii a b (some ("CHORD")) = arcSamples R c radii a b by
    rw [arcBase, if_neg (by decide), List.nil_append]]

set_option maxRecDepth 4000 in
lemma circleCountBounds : ∀ a, a < 201 → 20 ≤ a →
    20 ≤ pyRangeLen 0 3600 (3600 / a) + 2
      ∧ pyRangeLen 0 3600 (3600 / a) + 2 ≤ 202 := by decide

lemma circle_eval (c : Pt) (rad : ℝ) (R : Renderer) :
    circle [PyVal.pt c, PyVal.num rad] none initMode R
      = (Except.ok (ArcShape R c (Pt.mk (rad / 2) (rad / 2) 0) 0 (π * 2) (some ("CHORD"))),
         [ArcShape R c (Pt.mk (rad / 2) (rad / 2) 0) 0 (π * 2) (some ("CHORD"))]) := rfl

lemma ArcShape_vertices (R : Renderer) (c radii : Pt) (a b : ℝ) (m : Option String) :
    (ArcShape R c radii a b m).vertices = arcTessellate R c radii a b m := rfl

lemma arcTessellate_chord_closed (R : Renderer) (c radii : Pt) (a b : ℝ) :
    (arcTessellate R c radii a b (some ("CHORD"))).head?
      = (arcTessellate R c radii a b (some ("CHORD"))).getLast? := by
  obtain ⟨hd, tl, hcons⟩ :=
    List.exists_cons_of_ne_nil (arcSamples_ne_nil R c radii a b)
  rw [arcTessellate_chord, hcons, List.headD_cons, List.cons_append, List.head?_cons,
    ← List.cons_append, List.getLast?_concat]

lemma circle_chord_length (R : Renderer) (c radii : Pt) :
    (arcTessellate R c radii 0 (π * 2) (some ("CHORD"))).length
      = pyRangeLen 0 3600 (arcInc R c radii) + 2 := by
  rw [arcTessellate_chord, List.length_append, arcSamples_length, angleIndex_zero,
    angleIndex_two_pi, List.length_singleton]

/-- C1 (amended): for a `circle((0,0), 5)` call in the default CENTER mode,
under an arbitrary current transform, the returned shape's vertex list has a
length between 20 and 202 inclusive and its first and last vertices
coincide.  (The subdivision count is clamped to [20, 200]; the vertex list
additionally carries the stop-angle vertex and the closing vertex, so its
length can reach 202 — see the counterexample.) -/
theorem c1_circle_vertex_bounds (R : Renderer) :
    ∃ s, okShape (circle [PyVal.pt (Pt.mk 0 0 0), PyVal.num 5] none initMode R) = some s
      ∧ 20 ≤ s.vertices.length ∧ s.vertices.length ≤ 202
      ∧ s.vertices.head? = s.vertices.getLast? := by
  refine ⟨ArcShape R (Pt.mk 0 0 0) (Pt.mk (5 / 2) (5 / 2) 0) 0 (π * 2) (some ("CHORD")),
    by rw [okShape, circle_eval], ?_, ?_, ?_⟩
  · rw [ArcShape_vertices, circle_chord_length]
    have ha := le_pointAccuracy R (Pt.mk 0 0 0) (Pt.mk (5 / 2) (5 / 2) 0)
    have hb := pointAccuracy_le_200 R (Pt.mk 0 0 0) (Pt.mk (5 / 2) (5 / 2) 0)
    exact (circleCountBounds _ (by omega) ha).1
  · rw [ArcShape_vertices, circle_chord_length]
    have ha := le_pointAccuracy R (Pt.mk 0 0 0) (Pt.mk (5 / 2) (5 / 2) 0)
    have hb := pointAccuracy_le_200 R (Pt.mk 0 0 0) (Pt.mk (5 / 2) (5 / 2) 0)
    exact (circleCountBounds _ (by omega) ha).2
  · rw [ArcShape_vertices]
    exact arcTessellate_chord_closed R (Pt.mk 0 0 0) (Pt.mk (5 / 2) (5 / 2) 0) 0 (π * 2)

lemma diag_projectedDiff :
    ∀ i, projectedDiff diagRenderer (Pt.mk 0 0 0) (Pt.mk (5 / 2) (5 / 2) 0) i
      = ![300, 400, 0, 0] i := by
  intro i
  rw [projectedDiff]
  fin_cases i <;>
    simp [diagRenderer, Matrix.mulVec_diagonal, Matrix.cons_val_zero, Matrix.cons_val_one,
      Matrix.head_cons, Matrix.cons_val_two, Matrix.cons_val_three, Matrix.vecTail,
      Matrix.vecHead] <;>
    norm_num

lemma diag_projectedSize :
    projectedSize diagRenderer (Pt.mk 0 0 0) (Pt.mk (5 / 2) (5 / 2) 0) = 500 := by
  rw [projectedSize]
  have hsum : (∑ i, projectedDiff diagRenderer (Pt.mk 0 0 0) (Pt.mk (5 / 2) (5 / 2) 0) i
      * projectedDiff diagRenderer (Pt.mk 0 0 0) (Pt.mk (5 / 2) (5 / 2) 0) i)
      = (250000 : ℝ) := by
    rw [Fin.sum_univ_four, diag_projectedDiff 0, diag_projectedDiff 1,
      diag_projectedDiff 2, diag_projectedDiff 3]
    norm_num [Matrix.cons_val_zero, Matrix.cons_val_one, Matrix.head_cons,
      Matrix.cons_val_two, Matrix.cons_val_three, Matrix.vecTail, Matrix.vecHead]
  rw [hsum, show (250000 : ℝ) = 500 ^ 2 by norm_num,
    Real.sqrt_sq (by norm_num : (0 : ℝ) ≤ 500)]

lemma diag_pointAccuracy :
    pointAccuracy diagRenderer (Pt.mk 0 0 0) (Pt.mk (5 / 2) (5 / 2) 0) = 200 := by
  have h200 : (200 : ℕ) ≤ ⌊size_acc diagRenderer (Pt.mk 0 0 0) (Pt.mk (5 / 2) (5 / 2) 0)⌋₊ := by
    apply Nat.le_floor
    rw [size_acc, diag_projectedSize, POINT_ACCURACY_FACTOR]
    have hπ := Real.pi_gt_three
    push_cast
    nlinarith
  unfold pointAccuracy MAX_POINT_ACCURACY MIN_POINT_ACCURACY
  rw [max_eq_right (le_trans (by norm_num) h200), min_eq_left h200]

/-- C1 (counterexample): under a current transform that scales the circle's
projected size up to 500 (diag(120, 160, 0, 0)), the same `circle((0,0), 5)`
call returns a shape with 202 vertices, violating the claimed upper bound of
200. -/
theorem c1_counterexample :
    ∃ s, okShape (circle [PyVal.pt (Pt.mk 0 0 0), PyVal.num 5] none initMode diagRenderer)
        = some s
      ∧ s.vertices.length = 202 ∧ ¬ (s.vertices.length ≤ 200) := by
  have hinc : arcInc diagRenderer (Pt.mk 0 0 0) (Pt.mk (5 / 2) (5 / 2) 0) = 18 := by
    rw [arcInc, diag_pointAccuracy]
    norm_num [SINCOS_LENGTH]
  have hlen : (ArcShape diagRenderer (Pt.mk 0 0 0) (Pt.mk (5 / 2) (5 / 2) 0) 0 (π * 2)
      (some ("CHORD"))).vertices.length = 202 := by
    rw [ArcShape_vertices, circle_chord_length, hinc,
      show pyRangeLen 0 3600 18 = 200 by decide]
  exact ⟨ArcShape diagRenderer (Pt.mk 0 0 0) (Pt.mk (5 / 2) (5 / 2) 0) 0 (π * 2)
      (some ("CHORD")),
    by rw [okShape, circle_eval], hlen, by rw [hlen]; omega⟩

lemma circle_eval_center (c : Pt) (rad : ℝ) (st : ModeState) (R : Renderer) :
    circle [PyVal.pt c, PyVal.num rad] (some ("CENTER")) st R
      = (Except.ok (ArcShape R c (Pt.mk (rad / 2) (rad / 2) 0) 0 (π * 2) (some ("CHORD"))),
         [ArcShape R c (Pt.mk (rad / 2) (rad / 2) 0) 0 (π * 2) (some ("CHORD"))]) := rfl

lemma zero_projectedDiff (cap : ℕ) (w : ℝ) (c radii : Pt) :
    projectedDiff (zeroRenderer cap w) c radii = 0 := by
  funext i
  rw [projectedDiff]
  simp [zeroRenderer, Matrix.zero_mulVec]

lemma zero_size_acc (cap : ℕ) (w : ℝ) (c radii : Pt) :
    size_acc (zeroRenderer cap w) c radii = 0 := by
  rw [size_acc, projectedSize, zero_projectedDiff]
  simp

lemma zero_pointAccuracy (cap : ℕ) (w : ℝ) (c radii : Pt) :
    pointAccuracy (zeroRenderer cap w) c radii = 20 := by
  unfold pointAccuracy MAX_POINT_ACCURACY MIN_POINT_ACCURACY
  rw [zero_size_acc]
  norm_num

lemma zero_arcInc (cap : ℕ) (w : ℝ) (c radii : Pt) :
    arcInc (zeroRenderer cap w) c radii = 180 := by
  rw [arcInc, zero_pointAccuracy]
  norm_num [SINCOS_LENGTH]

lemma arcTessellate_chord_head (R : Renderer) (c radii : Pt) (a b : ℝ) :
    (arcTessellate R c radii a b (some ("CHORD"))).head?
      = (arcSamples R c radii a b).head? := by
  obtain ⟨hd, tl, hcons⟩ :=
    List.exists_cons_of_ne_nil (arcSamples_ne_nil R c radii a b)
  rw [arcTessellate_chord, hcons, List.headD_cons, List.cons_append, List.head?_cons,
    List.head?_cons]

lemma arcVertexAt_zero (c radii : Pt) :
    arcVertexAt c radii 0 = Pt.mk (c.x + radii.x) c.y 0 := by
  rw [arcVertexAt]
  norm_num [SINCOS, SINCOS_LENGTH]

lemma zero_arcSamples_head (cap : ℕ) (w : ℝ) (c radii : Pt) :
    (arcSamples (zeroRenderer cap w) c radii 0 (π * 2)).head?
      = some (arcVertexAt c radii 0) := by
  rw [arcSamples, arcIndexList, angleIndex_zero, angleIndex_two_pi, zero_arcInc, pyRange,
    show pyRangeLen 0 3600 180 = 20 from by decide,
    show (20 : ℕ) = 19 + 1 from rfl, List.range_succ_eq_map, List.map_cons,
    List.cons_append, List.map_cons, List.head?_cons]
  norm_num

lemma zero_circle_head (cap : ℕ) (w : ℝ) (c : Pt) (rad : ℝ) (st : ModeState) :
    headVertex (circle [PyVal.pt c, PyVal.num rad] (some ("CENTER")) st (zeroRenderer cap w))
      = some (Pt.mk (c.x + rad / 2) c.y 0) := by
  rw [circle_eval_center]
  show (ArcShape (zeroRenderer cap w) c (Pt.mk (rad / 2) (rad / 2) 0) 0 (π * 2)
      (some ("CHORD"))).vertices.head? = _
  rw [ArcShape_vertices, arcTessellate_chord_head, zero_arcSamples_head, arcVertexAt_zero]

/-- C2 (amended): when the renderer stroke cap is ROUND, `point(x, y, z)`
delegates to `circle` centered at (x, y, z) with a *diameter argument of
half the stroke weight* (the source passes `stroke_weight / 2`, and circle's
CENTER-mode size argument is a diameter); when the cap is PROJECT it
delegates to `square` centered at (x, y, z) with side length equal to the
stroke weight. -/
theorem c2_point_delegation (x y z : ℝ) (st : ModeState) (R : Renderer) :
    (R.stroke_cap = ROUND →
      point x y z st R
        = circle [PyVal.pt (Pt.mk x y z), PyVal.num (R.stroke_weight / 2)]
            (some ("CENTER")) st R)
    ∧ (R.stroke_cap = PROJECT →
      point x y z st R
        = square [PyVal.pt (Pt.mk x y z), PyVal.num R.stroke_weight]
            (some ("CENTER")) st) := by
  constructor
  · intro h
    rw [point, h]
    norm_num [ROUND, SQUARE, PROJECT]
  · intro h
    rw [point, h]
    norm_num [SQUARE, PROJECT]

theorem c2_witness :
    (zeroRenderer ROUND 4).stroke_cap = ROUND
      ∧ point 0 0 0 initMode (zeroRenderer ROUND 4)
          = circle [PyVal.pt (Pt.mk 0 0 0),
              PyVal.num ((zeroRenderer ROUND 4).stroke_weight / 2)]
              (some ("CENTER")) initMode (zeroRenderer ROUND 4) :=
  ⟨rfl, (c2_point_delegation 0 0 0 initMode (zeroRenderer ROUND 4)).1 rfl⟩

/-- C2 (counterexample): with stroke cap ROUND and stroke weight 4,
`point(0, 0, 0)` is *not* the circle of diameter 4 (the stroke weight)
centered there — the delegated circle has diameter 2, so the first tessellated
vertex is (1, 0, 0) instead of (2, 0, 0). -/
theorem c2_counterexample :
    (zeroRenderer ROUND 4).stroke_cap = ROUND
      ∧ (zeroRenderer ROUND 4).stroke_weight = 4
      ∧ point 0 0 0 initMode (zeroRenderer ROUND 4)
          ≠ circle [PyVal.pt (Pt.mk 0 0 0), PyVal.num 4] (some ("CENTER")) initMode
              (zeroRenderer ROUND 4) := by
  refine ⟨rfl, rfl, fun hEq => ?_⟩
  have hpoint : point 0 0 0 initMode (zeroRenderer ROUND 4)
      = circle [PyVal.pt (Pt.mk 0 0 0), PyVal.num ((4 : ℝ) / 2)] (some ("CENTER")) initMode
          (zeroRenderer ROUND 4) := rfl
  have hL := zero_circle_head ROUND 4 (Pt.mk 0 0 0) ((4 : ℝ) / 2) initMode
  have hR := zero_circle_head ROUND 4 (Pt.mk 0 0 0) (4 : ℝ) initMode
  rw [← hpoint] at hL
  rw [hEq, hR] at hL
  have : ((0 : ℝ) + 4 / 2) = 0 + 4 / 2 / 2 := congrArg Pt.x (Option.some.inj hL)
  norm_num at this

/-- C3: with stroke cap SQUARE, `point` does *not* return a literal
single-point shape: the source's `pass` branch falls through to
`raise ValueError('Unknown stroke_cap value')`, contradicting the claim (and
the function's own docstring, which promises a point PShape). -/
theorem c3_square_cap_raises :
    point 1 2 3 initMode (zeroRenderer SQUARE 4)
      = (Except.error ("Unknown stroke_cap value"), []) := rfl

lemma zero_projectedSize (cap : ℕ) (w : ℝ) (c radii : Pt) :
    projectedSize (zeroRenderer cap w) c radii = 0 := by
  rw [projectedSize, zero_projectedDiff]
  simp

lemma projectedSize_nonneg (R : Renderer) (c radii : Pt) :
    0 ≤ projectedSize R c radii := Real.sqrt_nonneg _

lemma size_acc_nonneg (R : Renderer) (c radii : Pt) :
    0 ≤ size_acc R c radii := by
  rw [size_acc]
  have := projectedSize_nonneg R c radii
  positivity

lemma size_acc_as_spec (R : Renderer) (c radii : Pt) :
    size_acc R c radii = 2 * π * projectedSize R c radii / 10 := by
  rw [size_acc, POINT_ACCURACY_FACTOR]
  push_cast
  ring

lemma scale_projectedSize (t : ℝ) (ht : 0 ≤ t) (c radii : Pt) :
    projectedSize (scaleRenderer t) c radii
      = t * Real.sqrt (∑ i, (![c.x + radii.x, c.y + radii.y, 0, 1] i - ![c.x, c.y, 0, 1] i)
          * (![c.x + radii.x, c.y + radii.y, 0, 1] i - ![c.x, c.y, 0, 1] i)) := by
  have hdiff : projectedDiff (scaleRenderer t) c radii
      = fun i => t * (![c.x + radii.x, c.y + radii.y, 0, 1] i - ![c.x, c.y, 0, 1] i) := by
    funext i
    rw [projectedDiff]
    fin_cases i <;>
      simp [scaleRenderer, Matrix.smul_mulVec_assoc, Matrix.one_mulVec] <;>
      ring
  rw [projectedSize, hdiff]
  rw [show (∑ i, (t * (![c.x + radii.x, c.y + radii.y, 0, 1] i - ![c.x, c.y, 0, 1] i))
        * (t * (![c.x + radii.x, c.y + radii.y, 0, 1] i - ![c.x, c.y, 0, 1] i)))
      = t ^ 2 * ∑ i, (![c.x + radii.x, c.y + radii.y, 0, 1] i - ![c.x, c.y, 0, 1] i)
        * (![c.x + radii.x, c.y + radii.y, 0, 1] i - ![c.x, c.y, 0, 1] i) by
    rw [Finset.mul_sum]
    exact Finset.sum_congr rfl (fun i _ => by ring)]
  rw [Real.sqrt_mul (sq_nonneg t), Real.sqrt_sq ht]

lemma pointAccuracy_mono_of_size_acc_le {R S : Renderer} {c radii c2 radii2 : Pt}
    (h : size_acc R c radii ≤ size_acc S c2 radii2) :
    pointAccuracy R c radii ≤ pointAccuracy S c2 radii2 := by
  unfold pointAccuracy
  exact min_le_min le_rfl (max_le_max le_rfl (Nat.floor_mono h))

/-- C4: the arc subdivision count equals
`min(200, max(20, floor(2π × projected_size / 10)))` where `projected_size`
is the Euclidean distance between the transformed center and the transformed
point offset by the radii; it is monotonically non-decreasing in the
transform scale for a fixed logical radius, equals 20 for small projected
sizes (≤ 30) and equals 200 for large ones (≥ 400). -/
theorem c4_subdivision_count :
    (∀ (R : Renderer) (c radii : Pt),
      pointAccuracy R c radii
        = min 200 (max 20 ⌊2 * π * projectedSize R c radii / 10⌋₊))
    ∧ (∀ (a b : ℝ) (c radii : Pt), 0 ≤ a → a ≤ b →
      pointAccuracy (scaleRenderer a) c radii ≤ pointAccuracy (scaleRenderer b) c radii)
    ∧ (∀ (R : Renderer) (c radii : Pt), projectedSize R c radii ≤ 30 →
      pointAccuracy R c radii = 20)
    ∧ (∀ (R : Renderer) (c radii : Pt), 400 ≤ projectedSize R c radii →
      pointAccuracy R c radii = 200) := by
  refine ⟨fun R c radii => ?_, fun a b c radii ha hab => ?_, fun R c radii h => ?_,
    fun R c radii h => ?_⟩
  · rw [pointAccuracy, size_acc_as_spec]
    rfl
  · apply pointAccuracy_mono_of_size_acc_le
    rw [size_acc_as_spec, size_acc_as_spec, scale_projectedSize a ha c radii,
      scale_projectedSize b (le_trans ha hab) c radii]
    have hs : (0 : ℝ) ≤ Real.sqrt (∑ i, (![c.x + radii.x, c.y + radii.y, 0, 1] i
        - ![c.x, c.y, 0, 1] i) * (![c.x + radii.x, c.y + radii.y, 0, 1] i
        - ![c.x, c.y, 0, 1] i)) := Real.sqrt_nonneg _
    have hπ : (0 : ℝ) < π := Real.pi_pos
    have hmul := mul_le_mul_of_nonneg_right hab hs
    nlinarith
  · have hlt : size_acc R c radii < 21 := by
      rw [size_acc_as_spec]
      have hp := projectedSize_nonneg R c radii
      have hπ := Real.pi_lt_d2
      have hπ3 := Real.pi_gt_three
      nlinarith
    have hfloor : ⌊size_acc R c radii⌋₊ < 21 :=
      (Nat.floor_lt (size_acc_nonneg R c radii)).2 (by exact_mod_cast hlt)
    unfold pointAccuracy MAX_POINT_ACCURACY MIN_POINT_ACCURACY
    rw [max_eq_left (by omega), min_eq_right (by norm_num)]
  · have hge : (200 : ℝ) ≤ size_acc R c radii := by
      rw [size_acc_as_spec]
      have hπ3 := Real.pi_gt_three
      nlinarith
    have hfloor : (200 : ℕ) ≤ ⌊size_acc R c radii⌋₊ := Nat.le_floor (by exact_mod_cast hge)
    unfold pointAccuracy MAX_POINT_ACCURACY MIN_POINT_ACCURACY
    rw [max_eq_right (le_trans (by norm_num) hfloor), min_eq_left hfloor]

theorem c4_witness :
    ((0 : ℝ) ≤ 0 ∧ (0 : ℝ) ≤ 1
      ∧ pointAccuracy (scaleRenderer 0) (Pt.mk 0 0 0) (Pt.mk 1 1 0)
          ≤ pointAccuracy (scaleRenderer 1) (Pt.mk 0 0 0) (Pt.mk 1 1 0))
    ∧ (projectedSize (zeroRenderer 0 0) (Pt.mk 0 0 0) (Pt.mk 1 1 0) ≤ 30
      ∧ pointAccuracy (zeroRenderer 0 0) (Pt.mk 0 0 0) (Pt.mk 1 1 0) = 20)
    ∧ (400 ≤ projectedSize diagRenderer (Pt.mk 0 0 0) (Pt.mk (5 / 2) (5 / 2) 0)
      ∧ pointAccuracy diagRenderer (Pt.mk 0 0 0) (Pt.mk (5 / 2) (5 / 2) 0) = 200) := by
  have h3 : projectedSize (zeroRenderer 0 0) (Pt.mk 0 0 0) (Pt.mk 1 1 0) ≤ 30 := by
    rw [zero_projectedSize]
    norm_num
  have h4 : (400 : ℝ) ≤ projectedSize diagRenderer (Pt.mk 0 0 0) (Pt.mk (5 / 2) (5 / 2) 0) := by
    rw [diag_projectedSize]
    norm_num
  exact ⟨⟨le_refl 0, zero_le_one,
      c4_subdivision_count.2.1 0 1 (Pt.mk 0 0 0) (Pt.mk 1 1 0) (le_refl 0) zero_le_one⟩,
    ⟨h3, c4_subdivision_count.2.2.1 (zeroRenderer 0 0) (Pt.mk 0 0 0) (Pt.mk 1 1 0) h3⟩,
    ⟨h4, c4_subdivision_count.2.2.2 diagRenderer (Pt.mk 0 0 0) (Pt.mk (5 / 2) (5 / 2) 0) h4⟩⟩

lemma append_headD_closed (l : List Pt) (hne : l ≠ []) :
    (l ++ [l.headD (Pt.mk 0 0 0)]).getLast? = (l ++ [l.headD (Pt.mk 0 0 0)]).head? := by
  obtain ⟨hd, tl, rfl⟩ := List.exists_cons_of_ne_nil hne
  rw [List.headD_cons, List.cons_append, List.head?_cons, ← List.cons_append,
    List.getLast?_concat]

/-- C5: an `Arc`'s topology tag is TESS (TESSELLATED_POLYGON) exactly when
its closure mode is OPEN or CHORD and TRIANGLE_FAN otherwise; the center
point is the first emitted vertex when the closure mode is PIE or unset and
otherwise the vertex list starts with the arc samples directly; the first
vertex is appended again at the end exactly when the closure mode is CHORD
or PIE (otherwise the list is just the base list). -/
theorem c5_arc_structure (R : Renderer) (c radii : Pt) (a b : ℝ) (m : Option String) :
    (arcSType m = SType.TESS ↔ (m = some ("OPEN") ∨ m = some ("CHORD")))
    ∧ ((m = some ("PIE") ∨ m = none) →
        (arcTessellate R c radii a b m).head? = some (Pt.mk c.x c.y 0))
    ∧ (¬ (m = some ("PIE") ∨ m = none) →
        (arcTessellate R c radii a b m).head? = (arcSamples R c radii a b).head?)
    ∧ ((m = some ("CHORD") ∨ m = some ("PIE")) →
        (arcTessellate R c radii a b m).getLast? = (arcTessellate R c radii a b m).head?)
    ∧ (¬ (m = some ("CHORD") ∨ m = some ("PIE")) →
        arcTessellate R c radii a b m = arcBase R c radii a b m) := by
  refine ⟨?_, ?_, ?_, ?_, ?_⟩
  · by_cases h : m = some ("OPEN") ∨ m = some ("CHORD") <;> simp [arcSType, h]
  · rintro (rfl | rfl)
    · rw [arcTessellate, if_pos (Or.inr rfl), arcBase, if_pos (Or.inl rfl),
        List.singleton_append, List.headD_cons, List.cons_append, List.head?_cons]
    · rw [arcTessellate, if_neg (by decide), arcBase, if_pos (Or.inr rfl),
        List.singleton_append, List.head?_cons]
  · intro h
    by_cases hc : m = some ("CHORD")
    · subst hc
      exact arcTessellate_chord_head R c radii a b
    · have hn : ¬ (m = some ("CHORD") ∨ m = some ("PIE")) := by
        rintro (h1 | h2)
        · exact hc h1
        · exact h (Or.inl h2)
      rw [arcTessellate, if_neg hn, arcBase, if_neg h, List.nil_append]
  · rintro (rfl | rfl)
    · rw [arcTessellate, if_pos (Or.inl rfl)]
      apply append_headD_closed
      rw [arcBase, if_neg (by decide), List.nil_append]
      exact arcSamples_ne_nil R c radii a b
    · rw [arcTessellate, if_pos (Or.inr rfl)]
      apply append_headD_closed
      rw [arcBase, if_pos (Or.inl rfl), List.singleton_append]
      exact List.cons_ne_nil _ _
  · intro h
    rw [arcTessellate, if_neg h]

theorem c5_witness :
    ((some ("PIE") : Option String) = some ("PIE") ∨ (some ("PIE") : Option String) = none)
    ∧ (arcTessellate (zeroRenderer 0 0) (Pt.mk 0 0 0) (Pt.mk 1 1 0) 0 (π * 2)
        (some ("PIE"))).head? = some (Pt.mk 0 0 0)
    ∧ ¬ ((some ("OPEN") : Option String) = some ("CHORD")
          ∨ (some ("OPEN") : Option String) = some ("PIE"))
    ∧ arcTessellate (zeroRenderer 0 0) (Pt.mk 0 0 0) (Pt.mk 1 1 0) 0 (π * 2) (some ("OPEN"))
        = arcBase (zeroRenderer 0 0) (Pt.mk 0 0 0) (Pt.mk 1 1 0) 0 (π * 2) (some ("OPEN")) := by
  refine ⟨Or.inl rfl, ?_, by decide, ?_⟩
  · exact (c5_arc_structure (zeroRenderer 0 0) (Pt.mk 0 0 0) (Pt.mk 1 1 0) 0 (π * 2)
      (some ("PIE"))).2.1 (Or.inl rfl)
  · exact (c5_arc_structure (zeroRenderer 0 0) (Pt.mk 0 0 0) (Pt.mk 1 1 0) 0 (π * 2)
      (some ("OPEN"))).2.2.2.2 (by decide)

/-- C6: coordinate normalization round-trips.  `rect` in CENTER mode places
the corner at center − (w/2, h/2) and re-deriving the center as
corner + (w/2, h/2) restores it (in particular center (10,10), width 4,
height 6 gives corner (8,7) and back); RADIUS mode round-trips through
half-extents; the CORNERS normalization formulas (stated on
`rectCornersNorm`, the normalization math of the source's CORNERS branch)
re-derive the opposite corner as corner + (width, height). -/
theorem c6_normalization_roundtrip :
    (∀ (c : Pt) (w h : ℝ) (st : ModeState),
      ∃ s, okShape (rect [PyVal.pt c, PyVal.num w, PyVal.num h] (some ("CENTER")) st) = some s
        ∧ s.vertices.head? = some (Pt.mk (c.x - w / 2) (c.y - h / 2) c.z)
        ∧ (c.x - w / 2) + w / 2 = c.x ∧ (c.y - h / 2) + h / 2 = c.y)
    ∧ (∃ s, okShape (rect [PyVal.pt (Pt.mk 10 10 0), PyVal.num 4, PyVal.num 6]
          (some ("CENTER")) initMode) = some s
        ∧ s.vertices.head? = some (Pt.mk 8 7 0)
        ∧ (8 : ℝ) + 4 / 2 = 10 ∧ (7 : ℝ) + 6 / 2 = 10)
    ∧ (∀ (c : Pt) (hw hh : ℝ) (st : ModeState),
      ∃ s, okShape (rect [PyVal.pt c, PyVal.num hw, PyVal.num hh] (some ("RADIUS")) st) = some s
        ∧ s.vertices.head? = some (Pt.mk (c.x - hw) (c.y - hh) c.z)
        ∧ (c.x - hw) + (2 * hw) / 2 = c.x ∧ (c.y - hh) + (2 * hh) / 2 = c.y
        ∧ (2 * hw) / 2 = hw ∧ (2 * hh) / 2 = hh)
    ∧ (∀ c1 c2 : Pt,
      (rectCornersNorm c1 c2).1 = c1
        ∧ c1.x + (rectCornersNorm c1 c2).2.1 = c2.x
        ∧ c1.y + (rectCornersNorm c1 c2).2.2 = c2.y) := by
  refine ⟨fun c w h st => ⟨_, rfl, rfl, by ring, by ring⟩, ⟨_, rfl, ?_, by norm_num, by norm_num⟩,
    fun c hw hh st => ⟨_, rfl, rfl, by ring, by ring, by ring, by ring⟩,
    fun c1 c2 => ⟨rfl, by rw [rectCornersNorm]; ring, by rw [rectCornersNorm]; ring⟩⟩
  show some (Pt.mk ((10 : ℝ) - 4 / 2) ((10 : ℝ) - 6 / 2) (0 : ℝ)) = some (Pt.mk 8 7 0)
  norm_num

lemma sampled_length (steps : ℕ) (f : ℝ → Pt) :
    ((List.range (steps + 1)).map (fun i : ℕ => f ((i : ℝ) / steps))).length = steps + 1 := by
  rw [List.length_map, List.length_range]

lemma sampled_head (steps : ℕ) (f : ℝ → Pt) :
    ((List.range (steps + 1)).map (fun i : ℕ => f ((i : ℝ) / steps))).head? = some (f 0) := by
  rw [List.range_succ_eq_map, List.map_cons, List.head?_cons]
  norm_num

lemma sampled_last (steps : ℕ) (h : 0 < steps) (f : ℝ → Pt) :
    ((List.range (steps + 1)).map (fun i : ℕ => f ((i : ℝ) / steps))).getLast?
      = some (f 1) := by
  rw [List.range_succ, List.map_append, List.map_singleton, List.getLast?_concat,
    div_self (Nat.cast_ne_zero.mpr h.ne' : (steps : ℝ) ≠ 0)]

lemma sampled_get (steps : ℕ) (f : ℝ → Pt) (i : ℕ) (h : i < steps + 1) :
    ((List.range (steps + 1)).map (fun i : ℕ => f ((i : ℝ) / steps)))[i]?
      = some (f ((i : ℝ) / steps)) := by
  rw [List.getElem?_map, List.getElem?_range h]
  rfl

/-- C7: for every valid control-point input (4 point tuples, 8 scalars or 12
scalars), `bezier` and `curve` return a LINE_STRIP shape with exactly
`steps + 1` vertices sampled at `t = i / steps`, whose first and last
vertices equal the curve evaluator's output at `t = 0` and `t = 1`; any
other argument count raises an invalid-argument error (and nothing is
rendered). -/
theorem c7_curve_sampling (steps : ℕ) (hsteps : 0 < steps) :
    (∀ p0 p1 p2 p3 : Pt,
      (bezierVertices steps p0 p1 p2 p3).length = steps + 1
      ∧ (bezierVertices steps p0 p1 p2 p3).head? = some (bezier_point p0 p1 p2 p3 0)
      ∧ (bezierVertices steps p0 p1 p2 p3).getLast? = some (bezier_point p0 p1 p2 p3 1)
      ∧ ∀ i : ℕ, i < steps + 1 →
          (bezierVertices steps p0 p1 p2 p3)[i]?
            = some (bezier_point p0 p1 p2 p3 ((i : ℝ) / steps)))
    ∧ (∀ p1 p2 p3 p4 : Pt,
      (curveVertices steps p1 p2 p3 p4).length = steps + 1
      ∧ (curveVertices steps p1 p2 p3 p4).head? = some (curve_point p1 p2 p3 p4 0)
      ∧ (curveVertices steps p1 p2 p3 p4).getLast? = some (curve_point p1 p2 p3 p4 1)
      ∧ ∀ i : ℕ, i < steps + 1 →
          (curveVertices steps p1 p2 p3 p4)[i]?
            = some (curve_point p1 p2 p3 p4 ((i : ℝ) / steps)))
    ∧ (∀ p0 p1 p2 p3 : Pt,
      bezier steps [PyVal.pt p0, PyVal.pt p1, PyVal.pt p2, PyVal.pt p3]
        = (Except.ok (PShape.mk (bezierVertices steps p0 p1 p2 p3) SType.LINE_STRIP),
           [PShape.mk (bezierVertices steps p0 p1 p2 p3) SType.LINE_STRIP])
      ∧ curve steps [PyVal.pt p0, PyVal.pt p1, PyVal.pt p2, PyVal.pt p3]
        = (Except.ok (PShape.mk (curveVertices steps p0 p1 p2 p3) SType.LINE_STRIP),
           [PShape.mk (curveVertices steps p0 p1 p2 p3) SType.LINE_STRIP]))
    ∧ (∀ x1 y1 x2 y2 x3 y3 x4 y4 : ℝ,
      bezier steps [PyVal.num x1, PyVal.num y1, PyVal.num x2, PyVal.num y2,
          PyVal.num x3, PyVal.num y3, PyVal.num x4, PyVal.num y4]
        = (Except.ok (PShape.mk (bezierVertices steps (Pt.mk x1 y1 0) (Pt.mk x2 y2 0)
              (Pt.mk x3 y3 0) (Pt.mk x4 y4 0)) SType.LINE_STRIP),
           [PShape.mk (bezierVertices steps (Pt.mk x1 y1 0) (Pt.mk x2 y2 0)
              (Pt.mk x3 y3 0) (Pt.mk x4 y4 0)) SType.LINE_STRIP])
      ∧ curve steps [PyVal.num x1, PyVal.num y1, PyVal.num x2, PyVal.num y2,
          PyVal.num x3, PyVal.num y3, PyVal.num x4, PyVal.num y4]
        = (Except.ok (PShape.mk (curveVertices steps (Pt.mk x1 y1 0) (Pt.mk x2 y2 0)
              (Pt.mk x3 y3 0) (Pt.mk x4 y4 0)) SType.LINE_STRIP),
           [PShape.mk (curveVertices steps (Pt.mk x1 y1 0) (Pt.mk x2 y2 0)
              (Pt.mk x3 y3 0) (Pt.mk x4 y4 0)) SType.LINE_STRIP]))
    ∧ (∀ x1 y1 z1 x2 y2 z2 x3 y3 z3 x4 y4 z4 : ℝ,
      bezier steps [PyVal.num x1, PyVal.num y1, PyVal.num z1, PyVal.num x2, PyVal.num y2,
          PyVal.num z2, PyVal.num x3, PyVal.num y3, PyVal.num z3, PyVal.num x4,
          PyVal.num y4, PyVal.num z4]
        = (Except.ok (PShape.mk (bezierVertices steps (Pt.mk x1 y1 z1) (Pt.mk x2 y2 z2)
              (Pt.mk x3 y3 z3) (Pt.mk x4 y4 z4)) SType.LINE_STRIP),
           [PShape.mk (bezierVertices steps (Pt.mk x1 y1 z1) (Pt.mk x2 y2 z2)
              (Pt.mk x3 y3 z3) (Pt.mk x4 y4 z4)) SType.LINE_STRIP])
      ∧ curve steps [PyVal.num x1, PyVal.num y1, PyVal.num z1, PyVal.num x2, PyVal.num y2,
          PyVal.num z2, PyVal.num x3, PyVal.num y3, PyVal.num z3, PyVal.num x4,
          PyVal.num y4, PyVal.num z4]
        = (Except.ok (PShape.mk (curveVertices steps (Pt.mk x1 y1 z1) (Pt.mk x2 y2 z2)
              (Pt.mk x3 y3 z3) (Pt.mk x4 y4 z4)) SType.LINE_STRIP),
           [PShape.mk (curveVertices steps (Pt.mk x1 y1 z1) (Pt.mk x2 y2 z2)
              (Pt.mk x3 y3 z3) (Pt.mk x4 y4 z4)) SType.LINE_STRIP]))
    ∧ (∀ args : List PyVal, args.length ≠ 4 → args.length ≠ 8 → args.length ≠ 12 →
      bezier steps args
        = (Except.error ("Unexpected number of arguments passed to bezier()"), [])
      ∧ curve steps args
        = (Except.error ("Unexpected number of arguments passed to curve()"), [])) := by
  refine ⟨fun p0 p1 p2 p3 => ⟨sampled_length steps (bezier_point p0 p1 p2 p3),
      sampled_head steps (bezier_point p0 p1 p2 p3),
      sampled_last steps hsteps (bezier_point p0 p1 p2 p3),
      fun i h => sampled_get steps (bezier_point p0 p1 p2 p3) i h⟩,
    fun p1 p2 p3 p4 => ⟨sampled_length steps (curve_point p1 p2 p3 p4),
      sampled_head steps (curve_point p1 p2 p3 p4),
      sampled_last steps hsteps (curve_point p1 p2 p3 p4),
      fun i h => sampled_get steps (curve_point p1 p2 p3 p4) i h⟩,
    fun p0 p1 p2 p3 => ⟨rfl, rfl⟩,
    fun x1 y1 x2 y2 x3 y3 x4 y4 => ⟨rfl, rfl⟩,
    fun x1 y1 z1 x2 y2 z2 x3 y3 z3 x4 y4 z4 => ⟨rfl, rfl⟩,
    fun args h4 h8 h12 => ?_⟩
  constructor
  · rw [bezier, controlPoints, if_neg h4, if_neg h8, if_neg h12]
    rfl
  · rw [curve, controlPoints, if_neg h4, if_neg h8, if_neg h12]
    rfl

lemma rect_eval3 (c : Pt) (w h : ℝ) (mode : Option String) (st : ModeState) :
    rect [PyVal.pt c, PyVal.num w, PyVal.num h] mode st
      = rectQuad (rectNorm (mode.getD st.rectMode) c (PyVal.num w) (PyVal.num h)) := rfl

lemma rectQuad_err (e : String) : rectQuad (Except.error e) = (Except.error e, []) := rfl

lemma rectNorm_unknown (m : String) (c : Pt) (a1 a2 : PyVal)
    (h1 : m ≠ ("CORNER")) (h2 : m ≠ ("CENTER")) (h3 : m ≠ ("RADIUS"))
    (h4 : m ≠ ("CORNERS")) :
    rectNorm m c a1 a2 = Except.error (("Unknown rect mode ") ++ m) := by
  rw [rectNorm, if_neg h1, if_neg h2, if_neg h3, if_neg h4]

lemma arcCenterDim_unknown (m : String) (coordinate : PyVal) (w h : ℝ)
    (h1 : m ≠ ("CORNER")) (h2 : m ≠ ("CENTER")) (h3 : m ≠ ("RADIUS")) :
    arcCenterDim m coordinate w h = Except.error (("Unknown arc mode ") ++ m) := by
  rw [arcCenterDim, if_neg h1, if_neg h2, if_neg h3]

lemma arc_eval5 (c' : PyVal) (w h sa sb : ℝ) (mode emr : Option String)
    (st : ModeState) (R : Renderer) :
    arc [c', PyVal.num w, PyVal.num h, PyVal.num sa, PyVal.num sb] mode emr st R
      = draw_on_return (do
          let cd ← arcCenterDim (emr.getD st.ellipseMode) c' w h
          pure (ArcShape R cd.1 cd.2 sa sb mode)) := rfl

lemma ellipse_eval3 (c' a1 a2 : PyVal) (mode : Option String) (st : ModeState)
    (R : Renderer) :
    ellipse [c', a1, a2] mode st R
      = (if mode.getD st.ellipseMode = ("CORNERS")
          then (Except.error ("too many values to unpack (expected 1)"), [])
          else arc [c', a1, a2, PyVal.num 0, PyVal.num (π * 2)] (some ("CHORD"))
            (some (mode.getD st.ellipseMode)) st R) := rfl

lemma circle_eval2 (c' r' : PyVal) (mode : Option String) (st : ModeState)
    (R : Renderer) :
    circle [c', r'] mode st R
      = (if mode.getD st.ellipseMode = ("CORNERS")
          then (Except.error ("Cannot create circle in CORNERS mode"), [])
          else ellipse [c', r', r'] (some (mode.getD st.ellipseMode)) st R) := rfl

lemma square_eval2 (c' s' : PyVal) (mode : Option String) (st : ModeState) :
    square [c', s'] mode st
      = (if mode.getD st.rectMode = ("CORNERS")
          then (Except.error (("Cannot draw square with ") ++ (mode.getD st.rectMode)
              ++ (" mode")), [])
          else rect [c', s', s'] (some (mode.getD st.rectMode)) st) := rfl

theorem c7_witness :
    0 < 20
    ∧ (bezierVertices 20 (Pt.mk 0 0 0) (Pt.mk 1 0 0) (Pt.mk 0 1 0) (Pt.mk 1 1 0)).length
        = 20 + 1
    ∧ (curveVertices 20 (Pt.mk 0 0 0) (Pt.mk 1 0 0) (Pt.mk 0 1 0) (Pt.mk 1 1 0)).getLast?
        = some (curve_point (Pt.mk 0 0 0) (Pt.mk 1 0 0) (Pt.mk 0 1 0) (Pt.mk 1 1 0) 1) :=
  ⟨by decide,
    ((c7_curve_sampling 20 (by decide)).1 (Pt.mk 0 0 0) (Pt.mk 1 0 0) (Pt.mk 0 1 0)
      (Pt.mk 1 1 0)).1,
    ((c7_curve_sampling 20 (by decide)).2.1 (Pt.mk 0 0 0) (Pt.mk 1 0 0) (Pt.mk 0 1 0)
      (Pt.mk 1 1 0)).2.2.1⟩

/-- C8: calling `rect`, `square`, `ellipse`, `circle` or `arc` with an
unsupported argument count raises an invalid-argument error with an empty
render log (the renderer collaborator's `render` is never called); `square`
and `circle` with mode CORNERS always raise, likewise without a render
call. -/
theorem c8_invalid_arity_no_render (st : ModeState) (R : Renderer) :
    (∀ (args : List PyVal) (mode : Option String), args.length ≠ 3 → args.length ≠ 4 →
      rect args mode st
        = (Except.error ("Unexpected number of arguments passed to rect()"), []))
    ∧ (∀ (args : List PyVal) (mode : Option String), args.length ≠ 2 → args.length ≠ 3 →
      square args mode st
        = (Except.error ("Unexpected number of arguments passed to square()"), []))
    ∧ (∀ (args : List PyVal) (mode : Option String), args.length ≠ 3 → args.length ≠ 4 →
      ellipse args mode st R
        = (Except.error ("Unexpected number of arguments passed to ellipse()"), []))
    ∧ (∀ (args : List PyVal) (mode : Option String), args.length ≠ 2 → args.length ≠ 3 →
      circle args mode st R
        = (Except.error ("Unexpected number of arguments passed to circle()"), []))
    ∧ (∀ (args : List PyVal) (mode emode : Option String), args.length ≠ 5 →
        args.length ≠ 6 →
      arc args mode emode st R
        = (Except.error ("Unexpected number of arguments passed to arc()"), []))
    ∧ (∀ args : List PyVal, ∃ e, square args (some ("CORNERS")) st = (Except.error e, []))
    ∧ (∀ args : List PyVal, ∃ e,
        circle args (some ("CORNERS")) st R = (Except.error e, [])) := by
  refine ⟨?_, ?_, ?_, ?_, ?_, ?_, ?_⟩
  · intro args mode h3 h4
    rw [rect, if_neg h4, if_neg h3]
    rfl
  · intro args mode h2 h3
    rw [square, if_neg h2, if_neg h3]
  · intro args mode h3 h4
    rw [ellipse, if_neg h3, if_neg h4]
  · intro args mode h2 h3
    rw [circle, if_neg h2, if_neg h3]
  · intro args mode emode h5 h6
    rw [arc, if_neg h5, if_neg h6]
    rfl
  · intro args
    by_cases h2 : args.length = 2
    · obtain ⟨a, b, rfl⟩ := List.length_eq_two.mp h2
      exact ⟨_, by rw [square_eval2, if_pos (show (some ("CORNERS") : Option String).getD
        st.rectMode = ("CORNERS") from rfl)]⟩
    · by_cases h3 : args.length = 3
      · obtain ⟨a, b, c, rfl⟩ := List.length_eq_three.mp h3
        rcases a with v | p
        · rcases b with v1 | p1
          · exact ⟨_, rfl⟩
          · exact ⟨_, rfl⟩
        · exact ⟨_, rfl⟩
      · exact ⟨_, by rw [square, if_neg h2, if_neg h3]⟩
  · intro args
    by_cases h2 : args.length = 2
    · obtain ⟨a, b, rfl⟩ := List.length_eq_two.mp h2
      exact ⟨_, by rw [circle_eval2, if_pos (show (some ("CORNERS") : Option String).getD
        st.ellipseMode = ("CORNERS") from rfl)]⟩
    · by_cases h3 : args.length = 3
      · obtain ⟨a, b, c, rfl⟩ := List.length_eq_three.mp h3
        rcases a with v | p
        · rcases b with v1 | p1
          · exact ⟨_, rfl⟩
          · exact ⟨_, rfl⟩
        · exact ⟨_, rfl⟩
      · exact ⟨_, by rw [circle, if_neg h2, if_neg h3]⟩

theorem c8_witness :
    (([PyVal.num 1] : List PyVal).length ≠ 3 ∧ ([PyVal.num 1] : List PyVal).length ≠ 4
      ∧ ([PyVal.num 1] : List PyVal).length ≠ 2 ∧ ([PyVal.num 1] : List PyVal).length ≠ 5
      ∧ ([PyVal.num 1] : List PyVal).length ≠ 6)
    ∧ rect [PyVal.num 1] none initMode
        = (Except.error ("Unexpected number of arguments passed to rect()"), [])
    ∧ square [PyVal.num 1] none initMode
        = (Except.error ("Unexpected number of arguments passed to square()"), [])
    ∧ ellipse [PyVal.num 1] none initMode (zeroRenderer 0 0)
        = (Except.error ("Unexpected number of arguments passed to ellipse()"), [])
    ∧ circle [PyVal.num 1] none initMode (zeroRenderer 0 0)
        = (Except.error ("Unexpected number of arguments passed to circle()"), [])
    ∧ arc [PyVal.num 1] none none initMode (zeroRenderer 0 0)
        = (Except.error ("Unexpected number of arguments passed to arc()"), [])
    ∧ (∃ e, square [PyVal.num 1, PyVal.num 1] (some ("CORNERS")) initMode
        = (Except.error e, []))
    ∧ (∃ e, circle [PyVal.num 1, PyVal.num 1] (some ("CORNERS")) initMode (zeroRenderer 0 0)
        = (Except.error e, [])) := by
  refine ⟨⟨by decide, by decide, by decide, by decide, by decide⟩,
    (c8_invalid_arity_no_render initMode (zeroRenderer 0 0)).1 [PyVal.num 1] none
      (by decide) (by decide),
    (c8_invalid_arity_no_render initMode (zeroRenderer 0 0)).2.1 [PyVal.num 1] none
      (by decide) (by decide),
    (c8_invalid_arity_no_render initMode (zeroRenderer 0 0)).2.2.1 [PyVal.num 1] none
      (by decide) (by decide),
    (c8_invalid_arity_no_render initMode (zeroRenderer 0 0)).2.2.2.1 [PyVal.num 1] none
      (by decide) (by decide),
    (c8_invalid_arity_no_render initMode (zeroRenderer 0 0)).2.2.2.2.1 [PyVal.num 1] none
      none (by decide) (by decide),
    (c8_invalid_arity_no_render initMode (zeroRenderer 0 0)).2.2.2.2.2.1
      [PyVal.num 1, PyVal.num 1],
    (c8_invalid_arity_no_render initMode (zeroRenderer 0 0)).2.2.2.2.2.2
      [PyVal.num 1, PyVal.num 1]⟩

lemma sincos_emod (idx : ℤ) :
    SINCOS ((idx % (SINCOS_LENGTH : ℤ)).toNat)
      = (Real.sin (2 * π * idx / SINCOS_LENGTH), Real.cos (2 * π * idx / SINCOS_LENGTH)) := by
  have hm : (0 : ℤ) ≤ idx % (SINCOS_LENGTH : ℤ) :=
    Int.emod_nonneg idx (by norm_num [SINCOS_LENGTH])
  have hcast : (((idx % (SINCOS_LENGTH : ℤ)).toNat : ℕ) : ℝ)
      = ((idx % (SINCOS_LENGTH : ℤ) : ℤ) : ℝ) := by
    exact_mod_cast congrArg (fun n : ℤ => (n : ℝ)) (Int.toNat_of_nonneg hm)
  rw [SINCOS, hcast]
  have hdecomp : ((idx % (SINCOS_LENGTH : ℤ) : ℤ) : ℝ)
      = (idx : ℝ) - ((idx / (SINCOS_LENGTH : ℤ) : ℤ) : ℝ) * (SINCOS_LENGTH : ℝ) := by
    rw [Int.emod_def]
    push_cast
    ring
  rw [hdecomp]
  have hangle : 2 * π * ((idx : ℝ) - ((idx / (SINCOS_LENGTH : ℤ) : ℤ) : ℝ)
        * (SINCOS_LENGTH : ℝ)) / (SINCOS_LENGTH : ℝ)
      = 2 * π * (idx : ℝ) / (SINCOS_LENGTH : ℝ)
        - ((idx / (SINCOS_LENGTH : ℤ) : ℤ) : ℝ) * (2 * π) := by
    have hne : ((SINCOS_LENGTH : ℕ) : ℝ) ≠ 0 := by norm_num [SINCOS_LENGTH]
    field_simp
    ring
  rw [hangle, Real.sin_sub_int_mul_two_pi, Real.cos_sub_int_mul_two_pi]

lemma arcVertexAt_wraps (c radii : Pt) (idx : ℤ) :
    arcVertexAt c radii idx
      = Pt.mk (c.x + radii.x * Real.cos (2 * π * idx / SINCOS_LENGTH))
          (c.y + radii.y * Real.sin (2 * π * idx / SINCOS_LENGTH)) 0 := by
  rw [arcVertexAt, sincos_emod]

/-- C9: for arcs whose angular span is negative or greater than 2π,
tessellation is total and every lookup-table index is reduced modulo the
table length into the valid range [0, 3600); the emitted sample vertices
are exactly the ideal circle points at the *raw* (unwrapped) index angles,
because the sine/cosine table is periodic over one full turn (wrap
correctness). -/
theorem c9_wraparound (R : Renderer) (c radii : Pt) (a b : ℝ)
    (h : b < a ∨ 2 * π < b - a) :
    (∀ idx ∈ arcIndexList R c radii a b,
      0 ≤ idx % (SINCOS_LENGTH : ℤ) ∧ idx % (SINCOS_LENGTH : ℤ) < (SINCOS_LENGTH : ℤ)
        ∧ (idx % (SINCOS_LENGTH : ℤ)).toNat < SINCOS_LENGTH)
    ∧ arcSamples R c radii a b
        = (arcIndexList R c radii a b).map (fun idx : ℤ =>
            Pt.mk (c.x + radii.x * Real.cos (2 * π * idx / SINCOS_LENGTH))
              (c.y + radii.y * Real.sin (2 * π * idx / SINCOS_LENGTH)) 0) := by
  refine ⟨fun idx _ => ?_, ?_⟩
  · have h1 : (0 : ℤ) ≤ idx % (SINCOS_LENGTH : ℤ) :=
      Int.emod_nonneg idx (by norm_num [SINCOS_LENGTH])
    have h2 : idx % (SINCOS_LENGTH : ℤ) < (SINCOS_LENGTH : ℤ) :=
      Int.emod_lt_of_pos idx (by norm_num [SINCOS_LENGTH])
    refine ⟨h1, h2, ?_⟩
    omega
  · rw [arcSamples]
    exact List.map_congr_left (fun idx _ => arcVertexAt_wraps c radii idx)

theorem c9_witness :
    ((0 : ℝ) < π * 2 ∨ 2 * π < 0 - π * 2)
    ∧ arcSamples (zeroRenderer 0 0) (Pt.mk 0 0 0) (Pt.mk 1 1 0) (π * 2) 0
        = (arcIndexList (zeroRenderer 0 0) (Pt.mk 0 0 0) (Pt.mk 1 1 0) (π * 2) 0).map
            (fun idx : ℤ =>
              Pt.mk ((Pt.mk 0 0 0).x + (Pt.mk 1 1 0).x
                  * Real.cos (2 * π * idx / SINCOS_LENGTH))
                ((Pt.mk 0 0 0).y + (Pt.mk 1 1 0).y
                  * Real.sin (2 * π * idx / SINCOS_LENGTH)) 0) :=
  ⟨Or.inl pi_two_pos,
    (c9_wraparound (zeroRenderer 0 0) (Pt.mk 0 0 0) (Pt.mk 1 1 0) (π * 2) 0
      (Or.inl pi_two_pos)).2⟩

/-- C10: `rect_mode` and `ellipse_mode` store any argument into the global
mode state without validation (the setters are total and record the string
verbatim); with an unrecognized stored mode, the invalid-argument error
surfaces only on the later `rect`/`square`/`ellipse`/`circle`/`arc` call
that consults the stored global mode (and nothing is rendered there). -/
theorem c10_mode_setters (m : String) (st : ModeState) (R : Renderer) :
    (rect_mode st m = { st with rectMode := m })
    ∧ (ellipse_mode st m = { st with ellipseMode := m })
    ∧ (m ≠ ("CORNER") → m ≠ ("CENTER") → m ≠ ("RADIUS") → m ≠ ("CORNERS") →
      (∀ (c : Pt) (w h : ℝ),
        rect [PyVal.pt c, PyVal.num w, PyVal.num h] none (rect_mode st m)
          = (Except.error (("Unknown rect mode ") ++ m), []))
      ∧ (∀ (c : Pt) (s : ℝ),
        square [PyVal.pt c, PyVal.num s] none (rect_mode st m)
          = (Except.error (("Unknown rect mode ") ++ m), []))
      ∧ (∀ (c : Pt) (w h : ℝ),
        ellipse [PyVal.pt c, PyVal.num w, PyVal.num h] none (ellipse_mode st m) R
          = (Except.error (("Unknown arc mode ") ++ m), []))
      ∧ (∀ (c : Pt) (r2 : ℝ),
        circle [PyVal.pt c, PyVal.num r2] none (ellipse_mode st m) R
          = (Except.error (("Unknown arc mode ") ++ m), []))
      ∧ (∀ (c : Pt) (w h sa sb : ℝ),
        arc [PyVal.pt c, PyVal.num w, PyVal.num h, PyVal.num sa, PyVal.num sb]
            none none (ellipse_mode st m) R
          = (Except.error (("Unknown arc mode ") ++ m), []))) := by
  refine ⟨rfl, rfl, fun h1 h2 h3 h4 => ⟨?_, ?_, ?_, ?_, ?_⟩⟩
  · intro c w h
    rw [rect_eval3,
      show (none : Option String).getD (rect_mode st m).rectMode = m from rfl,
      rectNorm_unknown m c _ _ h1 h2 h3 h4, rectQuad_err]
  · intro c s
    rw [square_eval2,
      show (none : Option String).getD (rect_mode st m).rectMode = m from rfl,
      if_neg h4, rect_eval3,
      show (some m).getD (rect_mode st m).rectMode = m from rfl,
      rectNorm_unknown m c _ _ h1 h2 h3 h4, rectQuad_err]
  · intro c w h
    rw [ellipse_eval3,
      show (none : Option String).getD (ellipse_mode st m).ellipseMode = m from rfl,
      if_neg h4, arc_eval5,
      show (some m).getD (ellipse_mode st m).ellipseMode = m from rfl,
      arcCenterDim_unknown m _ _ _ h1 h2 h3]
    rfl
  · intro c r2
    rw [circle_eval2,
      show (none : Option String).getD (ellipse_mode st m).ellipseMode = m from rfl,
      if_neg h4, ellipse_eval3,
      show (some m).getD (ellipse_mode st m).ellipseMode = m from rfl,
      if_neg h4, arc_eval5,
      show (some m).getD (ellipse_mode st m).ellipseMode = m from rfl,
      arcCenterDim_unknown m _ _ _ h1 h2 h3]
    rfl
  · intro c w h sa sb
    rw [arc_eval5,
      show (none : Option String).getD (ellipse_mode st m).ellipseMode = m from rfl,
      arcCenterDim_unknown m _ _ _ h1 h2 h3]
    rfl

theorem c10_witness :
    (("DIAGONAL") ≠ ("CORNER") ∧ ("DIAGONAL") ≠ ("CENTER") ∧ ("DIAGONAL") ≠ ("RADIUS")
      ∧ ("DIAGONAL") ≠ ("CORNERS"))
    ∧ rect_mode initMode ("DIAGONAL") = { initMode with rectMode := ("DIAGONAL") }
    ∧ rect [PyVal.pt (Pt.mk 0 0 0), PyVal.num 1, PyVal.num 1] none
        (rect_mode initMode ("DIAGONAL"))
      = (Except.error (("Unknown rect mode ") ++ ("DIAGONAL")), [])
    ∧ ellipse [PyVal.pt (Pt.mk 0 0 0), PyVal.num 1, PyVal.num 1] none
        (ellipse_mode initMode ("DIAGONAL")) (zeroRenderer 0 0)
      = (Except.error (("Unknown arc mode ") ++ ("DIAGONAL")), []) := by
  refine ⟨⟨by decide, by decide, by decide, by decide⟩,
    (c10_mode_setters ("DIAGONAL") initMode (zeroRenderer 0 0)).1, ?_, ?_⟩
  · exact ((c10_mode_setters ("DIAGONAL") initMode (zeroRenderer 0 0)).2.2 (by decide)
      (by decide) (by decide) (by decide)).1 (Pt.mk 0 0 0) 1 1
  · exact ((c10_mode_setters ("DIAGONAL") initMode (zeroRenderer 0 0)).2.2 (by decide)
      (by decide) (by decide) (by decide)).2.2.1 (Pt.mk 0 0 0) 1 1

end P5
